import Mathlib

/-!
Shallow embedding of the task-delegation and capability-resolution core of
the OmniAgent repository: the task analyzer, the coordinator facade
(`AgentCoordinator.processRequest`), the delegation tool, the intelligent
MCP helper tool (keyword extraction and relevance scoring), and the MCP
registry listing wrappers.  Strings are modelled as `List Char`; JavaScript
exceptions are modelled with `Except`; the external effects (thread
creation, LLM generation, provider listings) are supplied as explicit
oracle values so that every behaviour of the collaborators is quantified
over.  Relevance scores are modelled exactly in integer hundredths of the
source's decimal constants (`0.2` is `20`, the threshold `0.3` is `30`,
the clamp bound `1.0` is `100`).
-/

namespace OmniAgent

/-- ASCII word character, as in the character class underlying the
JavaScript regex word boundary. -/
def isWordChar (c : Char) : Bool :=
  c.isAlpha || c.isDigit || c = '_'

/-- Lower-casing of a string, character by character. -/
def lower (s : List Char) : List Char :=
  s.map Char.toLower

/-- The first string is a prefix of the second. -/
def leadsWith : List Char → List Char → Bool
  | [], _ => true
  | _ :: _, [] => false
  | a :: as, b :: bs => a = b && leadsWith as bs

/-- The needle (first argument) occurs as a contiguous substring of the
second argument. -/
def containsStr (needle : List Char) : List Char → Bool
  | [] => leadsWith needle []
  | h :: t => leadsWith needle (h :: t) || containsStr needle t

/-- JavaScript `hay.includes(needle)`. -/
def incl (hay needle : List Char) : Bool :=
  containsStr needle hay

/-- JavaScript `s.split(' ')`: split on every single space character;
`n` separators produce `n + 1` chunks. -/
def splitSp : List Char → List (List Char)
  | [] => [[]]
  | c :: cs =>
    if c = ' ' then [] :: splitSp cs
    else
      match splitSp cs with
      | [] => [[c]]
      | w :: ws => (c :: w) :: ws

/-- Auxiliary scanner for the regex `/\band\b/g`: `prev` is the character
just before the current position (`none` at the start of the string). -/
def countAndAux (prev : Option Char) : List Char → Nat
  | [] => 0
  | c :: cs =>
    (if c = 'a' then
      match cs with
      | 'n' :: 'd' :: rest =>
        (if (match prev with
             | none => true
             | some p => !isWordChar p) &&
            (match rest with
             | [] => true
             | r :: _ => !isWordChar r) then 1 else 0)
      | _ => 0
    else 0) + countAndAux (some c) cs

/-- Number of matches of the regex `/\band\b/g` in a string (matches of the
word `and` cannot overlap, so the global-match count is the count of
positions where `and` occurs delimited by word boundaries). -/
def countAnd (s : List Char) : Nat :=
  countAndAux none s

/-- Complexity tier of a task analysis. -/
inductive Complexity
  | simple
  | moderate
  | complex
deriving DecidableEq, Repr

/-- The `TaskAnalysis` record produced by `AgentCoordinator.analyzeTask`. -/
structure TaskAnalysis where
  primaryIntent : List Char
  requiredAgents : List (List Char)
  complexity : Complexity
  estimatedSteps : Nat
  suggestedApproach : List Char
deriving DecidableEq, Repr

/-- Keyword test for the email agent on the lower-cased message. -/
def needsEmail (message : List Char) : Bool :=
  incl (lower message) "email".data || incl (lower message) "send".data ||
    incl (lower message) "reply".data

/-- Keyword test for the calendar agent on the lower-cased message. -/
def needsCalendar (message : List Char) : Bool :=
  incl (lower message) "meeting".data || incl (lower message) "schedule".data ||
    incl (lower message) "calendar".data

/-- Keyword test for the web-search agent on the lower-cased message. -/
def needsWebSearch (message : List Char) : Bool :=
  incl (lower message) "search".data || incl (lower message) "find".data ||
    incl (lower message) "research".data

/-- Keyword test for the weather agent on the lower-cased message. -/
def needsWeather (message : List Char) : Bool :=
  incl (lower message) "weather".data || incl (lower message) "forecast".data

/-- The `requiredAgents` set of `analyzeTask`, in `Set` insertion order:
`mainAgent` first, then the keyword-triggered agents. -/
def requiredAgentsFor (message : List Char) : List (List Char) :=
  "mainAgent".data ::
    ((if needsEmail message then ["emailAgent".data] else []) ++
     (if needsCalendar message then ["calendarAgent".data] else []) ++
     (if needsWebSearch message then ["webSearchAgent".data] else []) ++
     (if needsWeather message then ["weatherAgent".data] else []))

/-- `message.split(' ').length`. -/
def wordCountOf (message : List Char) : Nat :=
  (splitSp message).length

/-- The complexity tier of `analyzeTask`: `complex` when the agent count
exceeds 3 or the raw message matches `/\band\b/g` more than once or the
word count exceeds 50; else `moderate` when the agent count exceeds 1 or
the word count exceeds 20; else `simple`. -/
def complexityFor (message : List Char) : Complexity :=
  if 3 < (requiredAgentsFor message).length || decide (1 < countAnd message) ||
      decide (50 < wordCountOf message) then .complex
  else if 1 < (requiredAgentsFor message).length || decide (20 < wordCountOf message) then
    .moderate
  else .simple

/-- The `primaryIntent` string of `analyzeTask`, chosen by the fixed
priority order email, calendar, web search, default. -/
def primaryIntentFor (message : List Char) : List Char :=
  if needsEmail message then "email management".data
  else if needsCalendar message then "scheduling".data
  else if needsWebSearch message then "information retrieval".data
  else "general assistance".data

/-- The `suggestedApproach` string of `analyzeTask`, keyed by the
complexity tier. -/
def suggestedApproachFor (message : List Char) : List Char :=
  if complexityFor message = .complex then
    "Break down into subtasks and coordinate multiple agents".data
  else if complexityFor message = .moderate then
    "Delegate to specialized agents with coordination".data
  else "Direct execution by primary agent".data

/-- `AgentCoordinator.analyzeTask` (src/mastra/config/system-config.ts):
keyword tests on the lower-cased message build the required-agent set
(insertion order `mainAgent`, `emailAgent`, `calendarAgent`,
`webSearchAgent`, `weatherAgent`); complexity comes from agent count,
`/\band\b/g` match count on the raw message, and `message.split(' ')`
word count; `estimatedSteps = max 3 (agentCount * 2)`. -/
def analyzeTask (message : List Char) : TaskAnalysis :=
  { primaryIntent := primaryIntentFor message
    requiredAgents := requiredAgentsFor message
    complexity := complexityFor message
    estimatedSteps := max 3 ((requiredAgentsFor message).length * 2)
    suggestedApproach := suggestedApproachFor message }

example : (analyzeTask "check the weather".data).requiredAgents =
    ["mainAgent".data, "weatherAgent".data] := by decide

example : (analyzeTask "and and and and and".data).complexity = Complexity.complex := by decide

example : (analyzeTask "and and and and and".data).requiredAgents.length = 1 := by decide

example : (splitSp "and and and and and".data).length = 5 := by decide

example : countAnd "sand and band".data = 1 := by decide

/-! Coordinator facade: `AgentCoordinator.processRequest`. -/

/-- A tool call as seen in the generation response trace. -/
structure ToolCall where
  toolName : List Char
  /-- `call.args?.agent`, when present. -/
  argsAgent : Option (List Char)
deriving DecidableEq, Repr

/-- Result of the generation capability: `{text, toolCalls}`; either field
may be absent. -/
structure GenResponse where
  text : Option (List Char)
  toolCalls : Option (List ToolCall)
deriving DecidableEq, Repr

/-- A `CoordinationRequest`: `{userId, message, context?{thread?, priority?,
timeout?}}`.  Priority and timeout never influence the modelled control
flow, so they are kept as opaque optional payloads. -/
structure CoordinationRequest where
  userId : List Char
  message : List Char
  ctxPresent : Bool
  ctxThread : Option (List Char)
  ctxPriority : Option (List Char)
  ctxTimeout : Option Nat
deriving DecidableEq, Repr

/-- A `CoordinationResult`; `metaError` models `metadata.error` and
`metaToolCalls` models `metadata.toolCalls` (the metadata map holds
`analysis`/`toolCalls` on success and `error` on failure). -/
structure CoordinationResult where
  success : Bool
  response : List Char
  thread : List Char
  agentsUsed : List (List Char)
  executionTime : Nat
  metaError : Option (List Char)
  metaToolCalls : Option Nat
deriving DecidableEq, Repr

/-- Oracle for the coordinator's external effects: the outcome of
`memory.createThread` (thread id, or a thrown error's message), the outcome
of `mainAgent.generate` (response, or a thrown error's message), and the
wall-clock delta `Date.now() - startTime` observed when the result record
is built. -/
structure CoordEnv where
  createThreadRes : Except (List Char) (List Char)
  generateRes : Except (List Char) GenResponse
  elapsed : Nat
deriving Repr

/-- `addUnique` models `Set.add` followed by insertion-ordered iteration:
append the element unless already present. -/
def addUnique (l : List (List Char)) (x : List Char) : List (List Char) :=
  if x ∈ l then l else l ++ [x]

/-- `AgentCoordinator.extractAgentsUsed`: start from `{mainAgent}` and add
`` `${call.args.agent}Agent` `` for every `delegate-task` tool call whose
`args.agent` is truthy (present and non-empty). -/
def extractAgentsUsed (response : GenResponse) : List (List Char) :=
  let base := ["mainAgent".data]
  match response.toolCalls with
  | none => base
  | some calls =>
    calls.foldl (fun acc call =>
      if call.toolName = "delegate-task".data then
        match call.argsAgent with
        | some a => if a ≠ [] then addUnique acc (a ++ "Agent".data) else acc
        | none => acc
      else acc) base

/-- `context?.thread || await this.createThread(userId)`: a present,
non-empty (truthy) thread id short-circuits; otherwise the
`createThread` effect runs (and may throw). -/
def resolveThread (req : CoordinationRequest) (env : CoordEnv) :
    Except (List Char) (List Char) :=
  match req.ctxThread with
  | some t => if t ≠ [] then .ok t else env.createThreadRes
  | none => env.createThreadRes

/-- The body of the `try` block of `processRequest`: resolve the thread,
analyze the task, call the orchestrator agent, and build the success
result.  An `Except.error` value models a thrown exception reaching the
`catch`. -/
def processAttempt (req : CoordinationRequest) (env : CoordEnv) :
    Except (List Char) CoordinationResult := do
  let thread ← resolveThread req env
  let analysis := analyzeTask req.message
  let _ := analysis.estimatedSteps + 2
  let response ← env.generateRes
  let agentsUsed := extractAgentsUsed response
  .ok {
    success := true
    response :=
      match response.text with
      | some t => if t ≠ [] then t else "Task completed successfully".data
      | none => "Task completed successfully".data
    thread := thread
    agentsUsed := agentsUsed
    executionTime := env.elapsed
    metaError := none
    metaToolCalls := some (match response.toolCalls with
      | some calls => calls.length
      | none => 0) }

/-- The failure `CoordinationResult` built in the `catch` block of
`processRequest` for a caught error message `e`. -/
def coordinationFailure (req : CoordinationRequest) (env : CoordEnv)
    (e : List Char) : CoordinationResult :=
  { success := false
    response := "I encountered an error while processing your request: ".data ++ e
    thread :=
      match req.ctxThread with
      | some t => if t ≠ [] then t else []
      | none => []
    agentsUsed := []
    executionTime := env.elapsed
    metaError := some e
    metaToolCalls := none }

/-- `AgentCoordinator.processRequest`: the `try` body with the `catch`
handler wrapped around it.  Total: every exception from the collaborators
is converted into a failure `CoordinationResult`. -/
def processRequest (req : CoordinationRequest) (env : CoordEnv) :
    CoordinationResult :=
  match processAttempt req env with
  | .ok r => r
  | .error e => coordinationFailure req env e

example :
    (processRequest
      { userId := "u1".data, message := "hi".data, ctxPresent := false,
        ctxThread := none, ctxPriority := none, ctxTimeout := none }
      { createThreadRes := .ok "t1".data,
        generateRes := .error "model down".data, elapsed := 7 }).success = false := by
  decide

example :
    (processRequest
      { userId := "u1".data, message := "hi".data, ctxPresent := false,
        ctxThread := none, ctxPriority := none, ctxTimeout := none }
      { createThreadRes := .ok "t1".data,
        generateRes := .error "model down".data, elapsed := 7 }).thread = [] := by
  decide

/-! Delegation tool: `createDelegationTool().execute` (delegate-task). -/

/-- A `DelegationResult`: `{success, result?, error?, metadata}` with
`metadata.agent` and (on success, when the trace reports tool calls)
`metadata.toolsUsed`. -/
structure DelegationResult where
  success : Bool
  result : Option (List Char)
  error : Option (List Char)
  metaAgent : Option (List Char)
  toolsUsed : Option (List (List Char))
deriving DecidableEq, Repr

/-- The static `agentMap` of the delegation tool, in source order. -/
def agentMap : List (List Char × List Char) :=
  [("email".data, "emailAgent".data),
   ("calendar".data, "calendarAgent".data),
   ("webSearch".data, "webSearchAgent".data),
   ("weather".data, "weatherAgent".data),
   ("project".data, "projectAgent".data),
   ("analytics".data, "analyticsAgent".data)]

/-- First-match association lookup (JavaScript object property access
`agentMap[agent]`). -/
def lookupIn : List (List Char × List Char) → List Char → Option (List Char)
  | [], _ => none
  | (k, v) :: rest, a => if a = k then some v else lookupIn rest a

/-- Oracle for the delegation tool's external effects: whether the lazily
imported `mastra` instance is truthy, which agent names
`mastra.getAgent` resolves to a truthy agent, and the outcome of the
sub-agent's `generate` call. -/
structure DelegationEnv where
  mastraPresent : Bool
  agentPresent : List Char → Bool
  generateRes : Except (List Char) GenResponse

/-- The `try` body of the delegation tool's `execute`: check the mastra
instance, resolve the agent name in the static map, fetch the agent,
build the delegation message, invoke the sub-agent, and build the success
result.  Every `throw` in the body is an `Except.error`. -/
def delegationAttempt (agent task : List Char) (taskCtx : Option (List Char))
    (env : DelegationEnv) : Except (List Char) DelegationResult :=
  if !env.mastraPresent then .error "Mastra instance not initialized".data
  else
    match lookupIn agentMap agent with
    | none => .error ("Unknown agent type: ".data ++ agent)
    | some agentName =>
      if !env.agentPresent agentName then
        .error ("Agent ".data ++ agentName ++ " not found or not initialized".data)
      else
        let _delegationMessage := task ++
          (match taskCtx with
           | some s => "\n\nAdditional Context: ".data ++ s
           | none => [])
        match env.generateRes with
        | .error e => .error e
        | .ok result =>
          .ok { success := true
                result := result.text
                error := none
                metaAgent := some agentName
                toolsUsed :=
                  match result.toolCalls with
                  | some calls => some (calls.map (·.toolName))
                  | none => none }

/-- `createDelegationTool().execute`: the `try` body with the `catch`
handler wrapped around it; a caught error message `e` becomes
`{success:false, error:e, metadata:{agent, errorTime}}`. -/
def delegationExecute (agent task : List Char) (taskCtx : Option (List Char))
    (env : DelegationEnv) : DelegationResult :=
  match delegationAttempt agent task taskCtx env with
  | .ok r => r
  | .error e =>
    { success := false
      result := none
      error := some e
      metaAgent := some agent
      toolsUsed := none }

example :
    (delegationExecute "quantumComputing".data "do it".data none
      { mastraPresent := true, agentPresent := fun _ => true,
        generateRes := .ok { text := some "ok".data, toolCalls := none } }).error =
      some "Unknown agent type: quantumComputing".data := by
  decide

/-! MCP registry listing wrappers (`mcp-config.ts`). -/

/-- A resource entry exposed by an MCP server; every field the scoring
code touches may be absent. -/
structure MCPResource where
  name : Option (List Char)
  uri : Option (List Char)
  description : Option (List Char)
  mimeType : Option (List Char)
deriving DecidableEq, Repr

/-- A prompt entry exposed by an MCP server. -/
structure MCPPrompt where
  name : Option (List Char)
  description : Option (List Char)
deriving DecidableEq, Repr

/-- A per-server listing: association of server name to its entries. -/
abbrev ServerMap (α : Type) : Type := List (List Char × List α)

/-- `getMCPResources`: `{}` when no client is configured; the provider
listing when it succeeds; `{}` when it throws.  The oracle `listing`
is the outcome of `client.resources.list()`. -/
def getMCPResources (clientPresent : Bool)
    (listing : Except (List Char) (ServerMap MCPResource)) : ServerMap MCPResource :=
  if !clientPresent then []
  else
    match listing with
    | .ok m => m
    | .error _ => []

/-- `getMCPPrompts`: `{}` when no client is configured; the provider
listing when it succeeds; `{}` when it throws. -/
def getMCPPrompts (clientPresent : Bool)
    (listing : Except (List Char) (ServerMap MCPPrompt)) : ServerMap MCPPrompt :=
  if !clientPresent then []
  else
    match listing with
    | .ok m => m
    | .error _ => []

/-! Intelligent MCP helper tool (keyword extraction and relevance
scoring). -/

/-- Query type accepted by the helper tool. -/
inductive QueryType
  | information
  | task
  | integration
  | analysis
  | general
deriving DecidableEq, Repr

/-- The stop-word set of `extractKeywords`, in source order. -/
def stopWords : List (List Char) :=
  ["the", "a", "an", "and", "or", "but", "in", "on", "at", "to", "for",
   "of", "with", "by", "from", "can", "you", "help", "me", "how", "what",
   "when", "where", "why", "is", "are", "do", "does", "please"].map String.data

/-- The integration allow-list of `extractKeywords`. -/
def integrationsAll : List (List Char) :=
  ["slack", "github", "jira", "notion", "google", "salesforce", "hubspot"].map
    String.data

/-- The integration list of `calculatePromptRelevance` (a strict subset of
the extraction allow-list). -/
def integrationsPrompt : List (List Char) :=
  ["slack", "github", "jira", "notion", "salesforce"].map String.data

/-- A character kept by `replace(/[^a-z0-9\s]/g, ' ')` after
lower-casing. -/
def isTokenChar (c : Char) : Bool :=
  ('a' ≤ c && c ≤ 'z') || ('0' ≤ c && c ≤ '9')

/-- Maximal runs of token characters.  Composing lower-casing, replacement
of every non-`[a-z0-9\s]` character by a space, and `split(/\s+/)` with
the later `length > 2` filter keeps exactly these runs, since every
non-token character acts as a separator. -/
def splitRuns : List Char → List (List Char)
  | [] => []
  | c :: cs =>
    let rest := splitRuns cs
    if isTokenChar c then
      match cs with
      | [] => [[c]]
      | d :: _ =>
        if isTokenChar d then
          match rest with
          | w :: ws => (c :: w) :: ws
          | [] => [[c]]
        else [c] :: rest
    else rest

/-- Order-preserving de-duplication (JavaScript `[...new Set(l)]`). -/
def dedupFirst (l : List (List Char)) : List (List Char) :=
  l.foldl addUnique []

/-- `extractKeywords`: tokens of length `> 2` that are not stop words,
plus every allow-listed integration name occurring in the lower-cased
query, de-duplicated keeping first occurrences. -/
def extractKeywords (query : List Char) : List (List Char) :=
  let lowerQuery := lower query
  let words := (splitRuns lowerQuery).filter
    (fun w => decide (2 < w.length) && !stopWords.contains w)
  let integrationKeywords := integrationsAll.filter (fun i => incl lowerQuery i)
  dedupFirst (words ++ integrationKeywords)

example : extractKeywords "Can you help me analyze my Slack channels?".data =
    ["analyze".data, "slack".data, "channels".data] := by decide

/-- An ephemeral relevance value plus the joined reason string.  Every
score constant in the source is a multiple of `0.05`, so scores are
represented exactly in integer hundredths: the source's `0.2` is `20`
here, the threshold `0.3` is `30`, and the clamp bound `1.0` is `100`. -/
structure Relevance where
  score : Nat
  reason : List Char
deriving DecidableEq, Repr

/-- `o ?? ''` as used in template literals (absent fields render empty). -/
def optText (o : Option (List Char)) : List Char := o.getD []

/-- `o?.includes(needle)` coerced to a boolean. -/
def optIncl (o : Option (List Char)) (needle : List Char) : Bool :=
  match o with
  | some s => incl s needle
  | none => false

/-- `reasons.join(', ')`. -/
def joinComma : List (List Char) → List Char
  | [] => []
  | r :: rest => rest.foldl (fun acc x => acc ++ ", ".data ++ x) r

/-- `reasons.join(', ') || 'General match'`. -/
def reasonJoin (reasons : List (List Char)) : List Char :=
  let j := joinComma reasons
  if j = [] then "General match".data else j

/-- The keyword loop shared by both relevance functions: add `inc` to the
score and push a `Contains keyword:` reason for every keyword occurring in
the searchable text. -/
def keywordFold (inc : Nat) (text : List Char) (keywords : List (List Char)) :
    Nat × List (List Char) :=
  keywords.foldl (fun acc kw =>
    if incl text kw then (acc.1 + inc, acc.2 ++ ["Contains keyword: ".data ++ kw])
    else acc) (0, [])

/-- Searchable text of a resource:
`` `${name || ''} ${uri || ''} ${description || ''}`.toLowerCase() ``. -/
def resourceSearchText (r : MCPResource) : List Char :=
  lower (optText r.name ++ " ".data ++ optText r.uri ++ " ".data ++ optText r.description)

/-- `calculateResourceRelevance`: `+0.2` per keyword substring match,
`+0.3` for documentation-shaped resources under query type `information`,
`+0.2` for config-shaped resources, `+0.25` for example/template-shaped
resources, clamped to `1`. -/
def calculateResourceRelevance (resource : MCPResource)
    (keywords : List (List Char)) (queryType : Option QueryType) : Relevance :=
  let resourceText := resourceSearchText resource
  let acc0 := keywordFold 20 resourceText keywords
  let docHit := decide (queryType = some QueryType.information) &&
    (decide (resource.mimeType = some "text/markdown".data) ||
     optIncl resource.uri "doc".data ||
     optIncl resource.name "guide".data)
  let acc1 := if docHit then
    (acc0.1 + 30, acc0.2 ++ ["Documentation resource".data]) else acc0
  let configHit := optIncl resource.uri "config".data ||
    optIncl resource.uri "settings".data
  let acc2 := if configHit then
    (acc1.1 + 20, acc1.2 ++ ["Configuration resource".data]) else acc1
  let exampleHit := optIncl resource.uri "example".data ||
    optIncl resource.uri "template".data
  let acc3 := if exampleHit then
    (acc2.1 + 25, acc2.2 ++ ["Example/template resource".data]) else acc2
  { score := min acc3.1 100, reason := reasonJoin acc3.2 }

/-- Searchable text of a prompt:
`` `${name || ''} ${description || ''}`.toLowerCase() ``. -/
def promptSearchText (p : MCPPrompt) : List Char :=
  lower (optText p.name ++ " ".data ++ optText p.description)

/-- `calculatePromptRelevance`: `+0.25` per keyword substring match,
`+0.4` for analysis prompts under query type `analysis`, `+0.3` for
create/generate/build prompts under query type `task`, `+0.5` per
integration whose name is both a keyword and in the prompt text, `+0.1`
for `get-started`/`help` prompts, clamped to `1`. -/
def calculatePromptRelevance (prompt : MCPPrompt)
    (keywords : List (List Char)) (queryType : Option QueryType) : Relevance :=
  let promptText := promptSearchText prompt
  let acc0 := keywordFold 25 promptText keywords
  let analysisHit := decide (queryType = some QueryType.analysis) &&
    incl promptText "analysis".data
  let acc1 := if analysisHit then
    (acc0.1 + 40, acc0.2 ++ ["Analysis prompt".data]) else acc0
  let taskHit := decide (queryType = some QueryType.task) &&
    (incl promptText "create".data || incl promptText "generate".data ||
     incl promptText "build".data)
  let acc2 := if taskHit then
    (acc1.1 + 30, acc1.2 ++ ["Task execution prompt".data]) else acc1
  let acc3 := integrationsPrompt.foldl (fun acc integ =>
    if incl promptText integ && keywords.contains integ then
      (acc.1 + 50, acc.2 ++ [integ ++ " integration prompt".data])
    else acc) acc2
  let helpHit := decide (prompt.name = some "get-started".data) ||
    decide (prompt.name = some "help".data)
  let acc4 := if helpHit then
    (acc3.1 + 10, acc3.2 ++ ["General help prompt".data]) else acc3
  { score := min acc4.1 100, reason := reasonJoin acc4.2 }

/-- Entry of the helper's `relevantResources` output list. -/
structure ResourceHit where
  server : List Char
  name : Option (List Char)
  uri : Option (List Char)
  relevanceReason : List Char
deriving DecidableEq, Repr

/-- Entry of the helper's `relevantPrompts` output list. -/
structure PromptHit where
  server : List Char
  name : Option (List Char)
  description : Option (List Char)
  relevanceReason : List Char
deriving DecidableEq, Repr

/-- JavaScript `a || b` on possibly absent strings (empty string is
falsy). -/
def jsOr (a b : Option (List Char)) : Option (List Char) :=
  match a with
  | some s => if s ≠ [] then some s else b
  | none => b

/-- The record pushed for a relevant resource. -/
def mkResourceHit (keywords : List (List Char)) (queryType : Option QueryType)
    (server : List Char) (r : MCPResource) : ResourceHit :=
  { server := server
    name := jsOr r.name r.uri
    uri := r.uri
    relevanceReason := (calculateResourceRelevance r keywords queryType).reason }

/-- The record pushed for a relevant prompt. -/
def mkPromptHit (keywords : List (List Char)) (queryType : Option QueryType)
    (server : List Char) (p : MCPPrompt) : PromptHit :=
  { server := server
    name := p.name
    description := p.description
    relevanceReason := (calculatePromptRelevance p keywords queryType).reason }

/-- The nested collection loop over servers and resources, keeping exactly
the entries whose score exceeds `0.3`. -/
def collectResourceHits (all : ServerMap MCPResource)
    (keywords : List (List Char)) (queryType : Option QueryType) : List ResourceHit :=
  (all.map (fun p =>
    (p.2.filter (fun r =>
      decide (30 < (calculateResourceRelevance r keywords queryType).score))).map
      (mkResourceHit keywords queryType p.1))).flatten

/-- The nested collection loop over servers and prompts, keeping exactly
the entries whose score exceeds `0.3`. -/
def collectPromptHits (all : ServerMap MCPPrompt)
    (keywords : List (List Char)) (queryType : Option QueryType) : List PromptHit :=
  (all.map (fun p =>
    (p.2.filter (fun q =>
      decide (30 < (calculatePromptRelevance q keywords queryType).score))).map
      (mkPromptHit keywords queryType p.1))).flatten

/-- Comparison used by `sort((a, b) => b.relevanceReason.length -
a.relevanceReason.length)` on resources: descending reason length. -/
def reasonGE (a b : ResourceHit) : Prop :=
  b.relevanceReason.length ≤ a.relevanceReason.length

instance : DecidableRel reasonGE := fun _ _ => Nat.decLe _ _

instance : IsTotal ResourceHit reasonGE := ⟨fun _ _ => Nat.le_total _ _⟩

instance : IsTrans ResourceHit reasonGE := ⟨fun _ _ _ hab hbc => le_trans hbc hab⟩

/-- Comparison used by the same sort on prompts. -/
def reasonGEP (a b : PromptHit) : Prop :=
  b.relevanceReason.length ≤ a.relevanceReason.length

instance : DecidableRel reasonGEP := fun _ _ => Nat.decLe _ _

instance : IsTotal PromptHit reasonGEP := ⟨fun _ _ => Nat.le_total _ _⟩

instance : IsTrans PromptHit reasonGEP := ⟨fun _ _ _ hab hbc => le_trans hbc hab⟩

/-- Stable descending-by-reason-length sort of resource hits. -/
def sortHitsR (l : List ResourceHit) : List ResourceHit :=
  List.insertionSort reasonGE l

/-- Stable descending-by-reason-length sort of prompt hits. -/
def sortHitsP (l : List PromptHit) : List PromptHit :=
  List.insertionSort reasonGEP l

/-- Decimal rendering of a count interpolated into a suggestion string. -/
def natStr (n : Nat) : List Char := (toString n).data

/-- `generateSuggestions`, called on the full (pre-truncation) sorted
lists. -/
def generateSuggestions (query : List Char) (resources : List ResourceHit)
    (prompts : List PromptHit) (_queryType : Option QueryType) : List (List Char) :=
  let s0 : List (List Char) := []
  let s1 :=
    if 0 < resources.length then
      let base := s0 ++ ["Found ".data ++ natStr resources.length ++
        " relevant resources that might help with your request".data]
      let docs := resources.filter (fun r =>
        optIncl r.name "doc".data || optIncl r.name "guide".data ||
        optIncl r.uri ".md".data)
      if 0 < docs.length then
        base ++ ["Consider checking the documentation resources first for guidance".data]
      else base
    else s0
  let s2 :=
    if 0 < prompts.length then
      let base := s1 ++ ["Found ".data ++ natStr prompts.length ++
        " relevant prompts that can structure the response".data]
      let analysisPrompts := prompts.filter (fun p => optIncl p.name "analysis".data)
      let base2 :=
        if 0 < analysisPrompts.length ∧ incl (lower query) "analyz".data = true then
          base ++ ["Use an analysis prompt for a comprehensive structured analysis".data]
        else base
      let integrationPrompts := prompts.filter (fun p =>
        optIncl p.name "slack".data || optIncl p.name "github".data ||
        optIncl p.description "integration".data)
      if 0 < integrationPrompts.length then
        base2 ++ ["Integration-specific prompts are available for better results".data]
      else base2
    else s1
  if resources.length = 0 ∧ prompts.length = 0 then
    s2 ++ ["No directly relevant MCP resources or prompts found".data,
           "Proceeding with general knowledge and available tools".data]
  else s2

/-- Output record of the helper tool. -/
structure HelperOutput where
  relevantResources : List ResourceHit
  relevantPrompts : List PromptHit
  suggestions : List (List Char)
  shouldUseResources : Bool
  shouldUsePrompts : Bool
deriving DecidableEq, Repr

/-- `intelligentMCPHelperTool.execute` given the listings returned by
`getMCPResources`/`getMCPPrompts`: extract keywords, collect entries
scoring above `0.3`, sort each list by descending reason length, build
suggestions from the full sorted lists, then return the first five of
each; the `shouldUse*` flags read the full lists' lengths. -/
def intelligentMCPHelper (userQuery : List Char) (queryType : Option QueryType)
    (allResources : ServerMap MCPResource) (allPrompts : ServerMap MCPPrompt) :
    HelperOutput :=
  let keywords := extractKeywords userQuery
  let rsSorted := sortHitsR (collectResourceHits allResources keywords queryType)
  let psSorted := sortHitsP (collectPromptHits allPrompts keywords queryType)
  { relevantResources := rsSorted.take 5
    relevantPrompts := psSorted.take 5
    suggestions := generateSuggestions userQuery rsSorted psSorted queryType
    shouldUseResources := decide (0 < rsSorted.length)
    shouldUsePrompts := decide (0 < psSorted.length) }

example :
    (calculatePromptRelevance
      { name := some "slack-digest".data, description := some "Summarize Slack activity".data }
      (extractKeywords "Can you help me analyze my Slack channels?".data)
      (some QueryType.analysis)).score = 75 := by decide

example :
    (calculatePromptRelevance
      { name := some "github-pr-review".data, description := none }
      (extractKeywords "Can you help me analyze my Slack channels?".data)
      (some QueryType.analysis)).score = 0 := by decide

/-- A config-shaped resource whose URI carries the given suffix digit,
scoring `0.4` (forty hundredths) against the query `slack`. -/
def cexResource (d : Char) : MCPResource :=
  { name := none, uri := some ("slack-config-".data ++ [d]), description := none,
    mimeType := none }

/-- A registry snapshot with six resources all scoring above the
relevance threshold. -/
def cexResources : ServerMap MCPResource :=
  [("srv".data,
    [cexResource '1', cexResource '2', cexResource '3',
     cexResource '4', cexResource '5', cexResource '6'])]

example :
    (calculateResourceRelevance (cexResource '6') (extractKeywords "slack".data) none).score =
      40 := by decide

example :
    ((intelligentMCPHelper "slack".data none cexResources []).relevantResources.map
      (fun h => h.uri)).contains (some ("slack-config-".data ++ ['6'])) = false := by decide

example :
    (intelligentMCPHelper "slack".data none cexResources []).relevantResources.length = 5 := by
  decide

/-! Helper lemmas (shared across claims). -/

lemma requiredAgentsFor_nodup (message : List Char) : (requiredAgentsFor message).Nodup := by
  unfold requiredAgentsFor
  cases hE : needsEmail message <;> cases hC : needsCalendar message <;>
    cases hS : needsWebSearch message <;> cases hW : needsWeather message <;> decide

lemma complexityFor_eq_complex (message : List Char) :
    complexityFor message = Complexity.complex ↔
      (3 < (requiredAgentsFor message).length ∨ 1 < countAnd message ∨
        50 < wordCountOf message) := by
  unfold complexityFor
  by_cases h1 : 3 < (requiredAgentsFor message).length <;>
    by_cases h2 : 1 < countAnd message <;>
      by_cases h3 : 50 < wordCountOf message <;>
        by_cases h4 : 1 < (requiredAgentsFor message).length <;>
          by_cases h5 : 20 < wordCountOf message <;>
            simp [h1, h2, h3, h4, h5]

lemma complexityFor_eq_moderate (message : List Char) :
    complexityFor message = Complexity.moderate ↔
      (¬(3 < (requiredAgentsFor message).length ∨ 1 < countAnd message ∨
          50 < wordCountOf message) ∧
        (1 < (requiredAgentsFor message).length ∨ 20 < wordCountOf message)) := by
  unfold complexityFor
  by_cases h1 : 3 < (requiredAgentsFor message).length <;>
    by_cases h2 : 1 < countAnd message <;>
      by_cases h3 : 50 < wordCountOf message <;>
        by_cases h4 : 1 < (requiredAgentsFor message).length <;>
          by_cases h5 : 20 < wordCountOf message <;>
            simp [h1, h2, h3, h4, h5]

/-! Claim theorems: task analyzer. -/

/-- Claim C5: for every message, `analyzeTask` produces a `requiredAgents`
set containing the orchestrator agent `mainAgent` (the list is duplicate
free, so its length is the set's size), and
`estimatedSteps = max 3 (requiredAgents.size * 2)`, hence
`estimatedSteps ≥ 3` for every input. -/
theorem analyzeTask_mainAgent_and_steps (message : List Char) :
    "mainAgent".data ∈ (analyzeTask message).requiredAgents ∧
    (analyzeTask message).requiredAgents.Nodup ∧
    (analyzeTask message).estimatedSteps =
      max 3 ((analyzeTask message).requiredAgents.length * 2) ∧
    3 ≤ (analyzeTask message).estimatedSteps := by
  refine ⟨?_, requiredAgentsFor_nodup message, rfl, le_max_left 3 _⟩
  exact List.mem_cons_self _ _

/-- Claim C4 as frozen is false: the message `"and and and and and"` has
five space-separated words, requires exactly one agent domain (only
`mainAgent`), yet is classified `complex`, because the `/\band\b/g`
match count 5 exceeds 1. -/
theorem analyzeTask_fiveWord_complex_cex :
    (analyzeTask "and and and and and".data).requiredAgents.length = 1 ∧
    wordCountOf "and and and and and".data = 5 ∧
    (analyzeTask "and and and and and".data).complexity = Complexity.complex := by
  decide

/-- Claim C4, amended: complexity is `complex` iff
`requiredAgents.size > 3` or the message contains more than one
`/\band\b/g` match or the word count exceeds 50, else `moderate` iff
`requiredAgents.size > 1` or the word count exceeds 20, else `simple`;
consequently a message requiring 4 distinct agent domains is never
`simple`, and a 5-word message requiring one domain with at most one
occurrence of the word `and` is never `complex`. -/
theorem analyzeTask_complexity_amended (message : List Char) :
    ((analyzeTask message).complexity = Complexity.complex ↔
      (3 < (analyzeTask message).requiredAgents.length ∨ 1 < countAnd message ∨
        50 < wordCountOf message)) ∧
    ((analyzeTask message).complexity = Complexity.moderate ↔
      (¬(3 < (analyzeTask message).requiredAgents.length ∨ 1 < countAnd message ∨
          50 < wordCountOf message) ∧
        (1 < (analyzeTask message).requiredAgents.length ∨ 20 < wordCountOf message))) ∧
    (4 ≤ (analyzeTask message).requiredAgents.length →
      (analyzeTask message).complexity ≠ Complexity.simple) ∧
    ((analyzeTask message).requiredAgents.length = 1 → wordCountOf message = 5 →
      countAnd message ≤ 1 → (analyzeTask message).complexity ≠ Complexity.complex) := by
  simp only [analyzeTask]
  have hc := complexityFor_eq_complex message
  have hm := complexityFor_eq_moderate message
  refine ⟨hc, hm, ?_, ?_⟩
  · intro h4 hs
    have hcx : complexityFor message = Complexity.complex := hc.mpr (Or.inl (by omega))
    rw [hs] at hcx
    exact absurd hcx (by decide)
  · intro h1 h5 hand hcx
    rcases hc.mp hcx with h | h | h
    · omega
    · omega
    · rw [h5] at h
      omega

/-- Witness for claim C4 (amended): the 5-word one-domain message
`a b c d e` (no occurrence of `and`) is not `complex`, and the message
`email meeting search weather` requiring four sub-agent domains is not
`simple`. -/
theorem analyzeTask_complexity_amended_witness :
    (analyzeTask "a b c d e".data).complexity ≠ Complexity.complex ∧
    (analyzeTask "email meeting search weather".data).complexity ≠ Complexity.simple :=
  ⟨(analyzeTask_complexity_amended "a b c d e".data).2.2.2
      (by decide) (by decide) (by decide),
   (analyzeTask_complexity_amended "email meeting search weather".data).2.2.1
      (by decide)⟩

/-! Claim theorems: coordinator facade. -/

/-- Claim C1: for every `CoordinationRequest`, including any behaviour of
the collaborators that makes thread creation or the orchestrator agent's
`generate` call throw, `processRequest` returns the `catch`-block
`CoordinationResult` — `success = false`, a response string embedding the
error message, `agentsUsed = []` and `metadata.error` carrying the error
detail — and, being a total function into `CoordinationResult`, never
propagates an exception to its caller. -/
theorem processRequest_never_raises (req : CoordinationRequest) (env : CoordEnv)
    (e : List Char)
    (h : resolveThread req env = .error e ∨
      ((∃ t, resolveThread req env = .ok t) ∧ env.generateRes = .error e)) :
    processRequest req env = coordinationFailure req env e ∧
    (processRequest req env).success = false ∧
    (processRequest req env).response =
      "I encountered an error while processing your request: ".data ++ e ∧
    (processRequest req env).agentsUsed = [] ∧
    (processRequest req env).metaError = some e := by
  have hA : processAttempt req env = .error e := by
    unfold processAttempt
    rcases h with h | ⟨⟨t, ht⟩, hg⟩
    · rw [h]
      rfl
    · rw [ht, hg]
      rfl
  have hP : processRequest req env = coordinationFailure req env e := by
    simp [processRequest, hA]
  exact ⟨hP, by rw [hP]; rfl, by rw [hP]; rfl, by rw [hP]; rfl, by rw [hP]; rfl⟩

/-- A concrete request with no caller-supplied thread. -/
def sampleRequest : CoordinationRequest :=
  { userId := "u1".data, message := "hello".data, ctxPresent := false,
    ctxThread := none, ctxPriority := none, ctxTimeout := none }

/-- A concrete environment in which thread creation succeeds and the
orchestrator generation throws. -/
def sampleFailEnv : CoordEnv :=
  { createThreadRes := .ok "t1".data,
    generateRes := .error "model down".data, elapsed := 5 }

/-- Witness for claim C1 at a concrete request and a concrete throwing
generation environment. -/
theorem processRequest_never_raises_witness :
    processRequest sampleRequest sampleFailEnv =
      coordinationFailure sampleRequest sampleFailEnv "model down".data ∧
    (processRequest sampleRequest sampleFailEnv).success = false ∧
    (processRequest sampleRequest sampleFailEnv).response =
      "I encountered an error while processing your request: ".data ++ "model down".data ∧
    (processRequest sampleRequest sampleFailEnv).agentsUsed = [] ∧
    (processRequest sampleRequest sampleFailEnv).metaError = some "model down".data :=
  processRequest_never_raises sampleRequest sampleFailEnv "model down".data
    (Or.inr ⟨⟨"t1".data, rfl⟩, rfl⟩)

/-- Claim C10: on the failure path of `processRequest` the returned
`thread` is the caller-supplied `context.thread` when one was given and
the empty string otherwise — a thread created during the failed request is
never reported back. -/
theorem processRequest_failure_thread (req : CoordinationRequest) (env : CoordEnv)
    (e : List Char) (h : processAttempt req env = .error e) :
    (processRequest req env).thread = req.ctxThread.getD [] := by
  have hP : processRequest req env = coordinationFailure req env e := by
    simp [processRequest, h]
  rw [hP]
  unfold coordinationFailure
  cases hc : req.ctxThread with
  | none => rfl
  | some t =>
    by_cases ht : t = [] <;> simp [ht]

/-- Witness for claim C10: with no caller-supplied thread, a successfully
created fresh thread id `t1`, and a throwing generation, the failure
result reports the empty thread, not `t1`. -/
theorem processRequest_failure_thread_witness :
    (processRequest sampleRequest sampleFailEnv).thread = [] :=
  processRequest_failure_thread sampleRequest sampleFailEnv "model down".data rfl

/-! Claim theorems: delegation tool. -/

/-- A concrete delegation environment whose sub-agent invocation
succeeds. -/
def sampleDelegationEnv : DelegationEnv :=
  { mastraPresent := true, agentPresent := fun _ => true,
    generateRes := .ok { text := some "done".data, toolCalls := none } }

/-- A concrete delegation environment whose sub-agent invocation
throws. -/
def sampleDelegationFailEnv : DelegationEnv :=
  { mastraPresent := true, agentPresent := fun _ => true,
    generateRes := .error "sub-agent timeout".data }

/-- Claim C2 as frozen is false on the error string: delegating to the
unknown agent name `quantumComputing` yields a failure result whose error
is `Unknown agent type: quantumComputing`, which is not the string
`unknown agent type`. -/
theorem delegation_unknown_agent_cex :
    (delegationExecute "quantumComputing".data "solve".data none
      sampleDelegationEnv).success = false ∧
    (delegationExecute "quantumComputing".data "solve".data none
      sampleDelegationEnv).error = some "Unknown agent type: quantumComputing".data ∧
    "Unknown agent type: quantumComputing".data ≠ "unknown agent type".data := by
  decide

/-- Claim C2, amended: the delegation tool's `execute` is total (never
throws).  Any agent name outside the static map yields a failure result
with `success = false` and a non-empty error string — equal to
`Unknown agent type: <name>` whenever the lazily imported framework
instance is available — and any exception raised by the sub-agent
invocation is caught and converted to `{success: false, error: message}`
rather than re-thrown. -/
theorem delegation_execute_amended (agent task : List Char)
    (taskCtx : Option (List Char)) (env : DelegationEnv) :
    (lookupIn agentMap agent = none →
      (delegationExecute agent task taskCtx env).success = false ∧
      (∃ msg, (delegationExecute agent task taskCtx env).error = some msg ∧ msg ≠ []) ∧
      (env.mastraPresent = true →
        (delegationExecute agent task taskCtx env).error =
          some ("Unknown agent type: ".data ++ agent))) ∧
    (∀ agentName e, lookupIn agentMap agent = some agentName →
      env.mastraPresent = true → env.agentPresent agentName = true →
      env.generateRes = .error e →
      (delegationExecute agent task taskCtx env).success = false ∧
      (delegationExecute agent task taskCtx env).error = some e) := by
  constructor
  · intro hnone
    cases hm : env.mastraPresent
    · refine ⟨?_, ⟨"Mastra instance not initialized".data, ?_, by decide⟩, ?_⟩ <;>
        simp [delegationExecute, delegationAttempt, hm]
    · refine ⟨?_, ⟨"Unknown agent type: ".data ++ agent, ?_, by simp⟩, fun _ => ?_⟩ <;>
        simp [delegationExecute, delegationAttempt, hm, hnone]
  · intro agentName e hsome hm hp hg
    constructor <;> simp [delegationExecute, delegationAttempt, hm, hsome, hp, hg]

/-- Witness for claim C2 (amended) at concrete inputs: an unknown agent
name with the framework available, and a known agent whose sub-agent call
throws. -/
theorem delegation_execute_amended_witness :
    (delegationExecute "quantumComputing".data "solve".data none
      sampleDelegationEnv).error =
      some ("Unknown agent type: ".data ++ "quantumComputing".data) ∧
    (delegationExecute "email".data "send it".data none
      sampleDelegationFailEnv).success = false ∧
    (delegationExecute "email".data "send it".data none
      sampleDelegationFailEnv).error = some "sub-agent timeout".data :=
  ⟨((delegation_execute_amended "quantumComputing".data "solve".data none
      sampleDelegationEnv).1 (by decide)).2.2 rfl,
   ((delegation_execute_amended "email".data "send it".data none
      sampleDelegationFailEnv).2 "emailAgent".data "sub-agent timeout".data
      (by decide) rfl rfl rfl).1,
   ((delegation_execute_amended "email".data "send it".data none
      sampleDelegationFailEnv).2 "emailAgent".data "sub-agent timeout".data
      (by decide) rfl rfl rfl).2⟩

/-! Claim theorems: MCP registry listing wrappers. -/

/-- Claim C8: `getMCPResources` and `getMCPPrompts` are total and, when
the client is absent or the provider listing throws, return the empty
map, so one unreachable provider never aborts the registry read; when the
client is present and the listing succeeds, the listing is returned. -/
theorem getMCP_listing_never_throws :
    (∀ listing, getMCPResources false listing = []) ∧
    (∀ clientPresent e, getMCPResources clientPresent (Except.error e) = []) ∧
    (∀ m, getMCPResources true (Except.ok m) = m) ∧
    (∀ listing, getMCPPrompts false listing = []) ∧
    (∀ clientPresent e, getMCPPrompts clientPresent (Except.error e) = []) ∧
    (∀ m, getMCPPrompts true (Except.ok m) = m) := by
  refine ⟨fun _ => rfl, fun cp e => ?_, fun _ => rfl,
    fun _ => rfl, fun cp e => ?_, fun _ => rfl⟩ <;> cases cp <;> rfl

/-! Helper lemmas: relevance scoring. -/

lemma keywordFold_score (inc : Nat) (text : List Char) (keywords : List (List Char)) :
    (keywordFold inc text keywords).1 =
      (keywords.filter (fun kw => incl text kw)).length * inc := by
  suffices h : ∀ (ks : List (List Char)) (a : Nat × List (List Char)),
      (ks.foldl (fun acc kw =>
        if incl text kw then (acc.1 + inc, acc.2 ++ ["Contains keyword: ".data ++ kw])
        else acc) a).1 = a.1 + (ks.filter (fun kw => incl text kw)).length * inc by
    simpa [keywordFold] using h keywords (0, [])
  intro ks
  induction ks with
  | nil => intro a; simp
  | cons kw rest ih =>
    intro a
    by_cases h : incl text kw = true
    · simp only [List.foldl_cons, List.filter_cons, h, if_pos]
      rw [ih]
      simp
      ring
    · simp only [List.foldl_cons, List.filter_cons, h, if_neg]
      rw [ih]
      simp [h]

lemma integrationFold_score (promptText : List Char) (keywords : List (List Char))
    (l : List (List Char)) (a : Nat × List (List Char)) :
    (l.foldl (fun acc integ =>
      if incl promptText integ && keywords.contains integ then
        (acc.1 + 50, acc.2 ++ [integ ++ " integration prompt".data])
      else acc) a).1 =
      a.1 + (l.filter (fun integ =>
        incl promptText integ && keywords.contains integ)).length * 50 := by
  induction l generalizing a with
  | nil => simp
  | cons integ rest ih =>
    by_cases h : (incl promptText integ && keywords.contains integ) = true
    · simp only [List.foldl_cons, List.filter_cons, h, if_pos]
      rw [ih]
      simp
      ring
    · simp only [List.foldl_cons, List.filter_cons, h, if_neg]
      rw [ih]
      simp [h]

/-- The resource score formula as the specification states it: a sum of
independent per-signal increments (in hundredths: `+20` per matched
keyword, `+30` documentation under query type `information`, `+20`
config, `+25` example/template), clamped to `100`. -/
def specResourceScore (resource : MCPResource) (keywords : List (List Char))
    (queryType : Option QueryType) : Nat :=
  min
    ((keywords.filter (fun kw => incl (resourceSearchText resource) kw)).length * 20 +
      (if decide (queryType = some QueryType.information) &&
          (decide (resource.mimeType = some "text/markdown".data) ||
           optIncl resource.uri "doc".data ||
           optIncl resource.name "guide".data) then 30 else 0) +
      (if optIncl resource.uri "config".data ||
          optIncl resource.uri "settings".data then 20 else 0) +
      (if optIncl resource.uri "example".data ||
          optIncl resource.uri "template".data then 25 else 0))
    100

/-- The prompt score formula as the specification states it (in
hundredths: `+25` per matched keyword, `+40` analysis under query type
`analysis`, `+30` create/generate/build under query type `task`, `+50`
per integration that is both a matched token and in the prompt text,
`+10` for `get-started`/`help`), clamped to `100`. -/
def specPromptScore (prompt : MCPPrompt) (keywords : List (List Char))
    (queryType : Option QueryType) : Nat :=
  min
    ((keywords.filter (fun kw => incl (promptSearchText prompt) kw)).length * 25 +
      (if decide (queryType = some QueryType.analysis) &&
          incl (promptSearchText prompt) "analysis".data then 40 else 0) +
      (if decide (queryType = some QueryType.task) &&
          (incl (promptSearchText prompt) "create".data ||
           incl (promptSearchText prompt) "generate".data ||
           incl (promptSearchText prompt) "build".data) then 30 else 0) +
      (integrationsPrompt.filter (fun integ =>
        incl (promptSearchText prompt) integ && keywords.contains integ)).length * 50 +
      (if decide (prompt.name = some "get-started".data) ||
          decide (prompt.name = some "help".data) then 10 else 0))
    100

lemma calculateResourceRelevance_score_eq (resource : MCPResource)
    (keywords : List (List Char)) (queryType : Option QueryType) :
    (calculateResourceRelevance resource keywords queryType).score =
      specResourceScore resource keywords queryType := by
  unfold calculateResourceRelevance specResourceScore
  by_cases h1 : (decide (queryType = some QueryType.information) &&
      (decide (resource.mimeType = some "text/markdown".data) ||
       optIncl resource.uri "doc".data ||
       optIncl resource.name "guide".data)) = true <;>
    by_cases h2 : (optIncl resource.uri "config".data ||
        optIncl resource.uri "settings".data) = true <;>
      by_cases h3 : (optIncl resource.uri "example".data ||
          optIncl resource.uri "template".data) = true <;>
        simp only [h1, h2, h3, if_pos, if_neg, Bool.not_eq_true, if_true, if_false,
          keywordFold_score] <;>
          omega

lemma calculatePromptRelevance_score_eq (prompt : MCPPrompt)
    (keywords : List (List Char)) (queryType : Option QueryType) :
    (calculatePromptRelevance prompt keywords queryType).score =
      specPromptScore prompt keywords queryType := by
  unfold calculatePromptRelevance specPromptScore
  by_cases h1 : (decide (queryType = some QueryType.analysis) &&
      incl (promptSearchText prompt) "analysis".data) = true <;>
    by_cases h2 : (decide (queryType = some QueryType.task) &&
        (incl (promptSearchText prompt) "create".data ||
         incl (promptSearchText prompt) "generate".data ||
         incl (promptSearchText prompt) "build".data)) = true <;>
      by_cases h3 : (decide (prompt.name = some "get-started".data) ||
          decide (prompt.name = some "help".data)) = true <;>
        simp only [h1, h2, h3, if_pos, if_neg, Bool.not_eq_true, if_true, if_false,
          keywordFold_score, integrationFold_score] <;>
          omega

/-! Claim theorems: relevance scoring. -/

/-- Claim C6: for every entry, keyword set and query type, the relevance
score computed by `calculateResourceRelevance` and
`calculatePromptRelevance` equals the specification's sum of per-signal
increments — per-keyword `+0.20` (resources) / `+0.25` (prompts) and the
type-specific bonuses — clamped to `1.0` (all values in exact
hundredths). -/
theorem relevance_score_formula (resource : MCPResource) (prompt : MCPPrompt)
    (keywords : List (List Char)) (queryType : Option QueryType) :
    (calculateResourceRelevance resource keywords queryType).score =
      specResourceScore resource keywords queryType ∧
    (calculatePromptRelevance prompt keywords queryType).score =
      specPromptScore prompt keywords queryType :=
  ⟨calculateResourceRelevance_score_eq resource keywords queryType,
   calculatePromptRelevance_score_eq prompt keywords queryType⟩

/-- Claim C7: every relevance score lies between `0` and `1` (in
hundredths: between `0` and `100`), even when many signals fire, because
the accumulated sum is clamped. -/
theorem relevance_score_bounds (resource : MCPResource) (prompt : MCPPrompt)
    (keywords : List (List Char)) (queryType : Option QueryType) :
    0 ≤ (calculateResourceRelevance resource keywords queryType).score ∧
    (calculateResourceRelevance resource keywords queryType).score ≤ 100 ∧
    0 ≤ (calculatePromptRelevance prompt keywords queryType).score ∧
    (calculatePromptRelevance prompt keywords queryType).score ≤ 100 := by
  refine ⟨Nat.zero_le _, ?_, Nat.zero_le _, ?_⟩
  · rw [calculateResourceRelevance_score_eq]
    exact Nat.min_le_right _ _
  · rw [calculatePromptRelevance_score_eq]
    exact Nat.min_le_right _ _

/-! Helper lemmas: collection, sorting and truncation in the helper
tool. -/

lemma mem_collectResourceHits {all : ServerMap MCPResource}
    {keywords : List (List Char)} {queryType : Option QueryType} {hit : ResourceHit} :
    hit ∈ collectResourceHits all keywords queryType ↔
      ∃ server entries resource, (server, entries) ∈ all ∧ resource ∈ entries ∧
        30 < (calculateResourceRelevance resource keywords queryType).score ∧
        hit = mkResourceHit keywords queryType server resource := by
  constructor
  · intro h
    obtain ⟨l, hl, hhit⟩ := List.mem_flatten.mp h
    obtain ⟨⟨server, entries⟩, hp, rfl⟩ := List.mem_map.mp hl
    obtain ⟨r, hr, rfl⟩ := List.mem_map.mp hhit
    obtain ⟨hre, hscore⟩ := List.mem_filter.mp hr
    exact ⟨server, entries, r, hp, hre, by simpa using hscore, rfl⟩
  · rintro ⟨server, entries, r, hp, hre, hscore, rfl⟩
    refine List.mem_flatten.mpr ⟨_, List.mem_map_of_mem _ hp, ?_⟩
    exact List.mem_map_of_mem _ (List.mem_filter.mpr ⟨hre, by simpa using hscore⟩)

lemma mem_collectPromptHits {all : ServerMap MCPPrompt}
    {keywords : List (List Char)} {queryType : Option QueryType} {hit : PromptHit} :
    hit ∈ collectPromptHits all keywords queryType ↔
      ∃ server entries prompt, (server, entries) ∈ all ∧ prompt ∈ entries ∧
        30 < (calculatePromptRelevance prompt keywords queryType).score ∧
        hit = mkPromptHit keywords queryType server prompt := by
  constructor
  · intro h
    obtain ⟨l, hl, hhit⟩ := List.mem_flatten.mp h
    obtain ⟨⟨server, entries⟩, hp, rfl⟩ := List.mem_map.mp hl
    obtain ⟨q, hq, rfl⟩ := List.mem_map.mp hhit
    obtain ⟨hqe, hscore⟩ := List.mem_filter.mp hq
    exact ⟨server, entries, q, hp, hqe, by simpa using hscore, rfl⟩
  · rintro ⟨server, entries, q, hp, hqe, hscore, rfl⟩
    refine List.mem_flatten.mpr ⟨_, List.mem_map_of_mem _ hp, ?_⟩
    exact List.mem_map_of_mem _ (List.mem_filter.mpr ⟨hqe, by simpa using hscore⟩)

lemma mem_sortHitsR {l : List ResourceHit} {hit : ResourceHit} :
    hit ∈ sortHitsR l ↔ hit ∈ l :=
  (List.perm_insertionSort reasonGE l).mem_iff

lemma mem_sortHitsP {l : List PromptHit} {hit : PromptHit} :
    hit ∈ sortHitsP l ↔ hit ∈ l :=
  (List.perm_insertionSort reasonGEP l).mem_iff

lemma length_sortHitsR (l : List ResourceHit) : (sortHitsR l).length = l.length :=
  (List.perm_insertionSort reasonGE l).length_eq

lemma length_sortHitsP (l : List PromptHit) : (sortHitsP l).length = l.length :=
  (List.perm_insertionSort reasonGEP l).length_eq

lemma helper_relevantResources_eq (userQuery : List Char) (queryType : Option QueryType)
    (allResources : ServerMap MCPResource) (allPrompts : ServerMap MCPPrompt) :
    (intelligentMCPHelper userQuery queryType allResources allPrompts).relevantResources =
      (sortHitsR (collectResourceHits allResources (extractKeywords userQuery)
        queryType)).take 5 :=
  rfl

lemma helper_relevantPrompts_eq (userQuery : List Char) (queryType : Option QueryType)
    (allResources : ServerMap MCPResource) (allPrompts : ServerMap MCPPrompt) :
    (intelligentMCPHelper userQuery queryType allResources allPrompts).relevantPrompts =
      (sortHitsP (collectPromptHits allPrompts (extractKeywords userQuery)
        queryType)).take 5 :=
  rfl

/-! Claim theorems: the helper tool's relevant sets. -/

/-- Claim C3 as frozen is false: the resource `slack-config-6` of the
six-resource registry `cexResources` scores `0.4 > 0.3` against the query
`slack` and reaches the pre-truncation relevant list, yet it does not
appear in the returned `relevantResources`, because six entries qualify
and the output is truncated to five. -/
theorem helper_threshold_cex :
    30 < (calculateResourceRelevance (cexResource '6')
      (extractKeywords "slack".data) none).score ∧
    mkResourceHit (extractKeywords "slack".data) none "srv".data (cexResource '6') ∈
      collectResourceHits cexResources (extractKeywords "slack".data) none ∧
    (mkResourceHit (extractKeywords "slack".data) none "srv".data
      (cexResource '6')).uri = some ("slack-config-".data ++ ['6']) ∧
    ((intelligentMCPHelper "slack".data none cexResources []).relevantResources.map
      (fun h => h.uri)).contains (some ("slack-config-".data ++ ['6'])) = false := by
  decide

/-- Claim C3, amended: every returned entry comes from a candidate scoring
strictly above `0.3` (so entries scoring `≤ 0.3` never appear), and
conversely every candidate scoring above `0.3` reaches the full
pre-truncation relevant list and appears in the returned set whenever at
most five entries of its kind qualify; with more than five qualifying
entries only the five with the longest relevance reasons are returned. -/
theorem helper_threshold_amended (userQuery : List Char) (queryType : Option QueryType)
    (allResources : ServerMap MCPResource) (allPrompts : ServerMap MCPPrompt) :
    (∀ hit ∈ (intelligentMCPHelper userQuery queryType allResources
        allPrompts).relevantResources,
      ∃ server entries resource, (server, entries) ∈ allResources ∧ resource ∈ entries ∧
        30 < (calculateResourceRelevance resource (extractKeywords userQuery)
          queryType).score ∧
        hit = mkResourceHit (extractKeywords userQuery) queryType server resource) ∧
    (∀ hit ∈ (intelligentMCPHelper userQuery queryType allResources
        allPrompts).relevantPrompts,
      ∃ server entries prompt, (server, entries) ∈ allPrompts ∧ prompt ∈ entries ∧
        30 < (calculatePromptRelevance prompt (extractKeywords userQuery)
          queryType).score ∧
        hit = mkPromptHit (extractKeywords userQuery) queryType server prompt) ∧
    ((collectResourceHits allResources (extractKeywords userQuery) queryType).length ≤ 5 →
      ∀ server entries resource, (server, entries) ∈ allResources → resource ∈ entries →
        30 < (calculateResourceRelevance resource (extractKeywords userQuery)
          queryType).score →
        mkResourceHit (extractKeywords userQuery) queryType server resource ∈
          (intelligentMCPHelper userQuery queryType allResources
            allPrompts).relevantResources) ∧
    ((collectPromptHits allPrompts (extractKeywords userQuery) queryType).length ≤ 5 →
      ∀ server entries prompt, (server, entries) ∈ allPrompts → prompt ∈ entries →
        30 < (calculatePromptRelevance prompt (extractKeywords userQuery)
          queryType).score →
        mkPromptHit (extractKeywords userQuery) queryType server prompt ∈
          (intelligentMCPHelper userQuery queryType allResources
            allPrompts).relevantPrompts) := by
  refine ⟨?_, ?_, ?_, ?_⟩
  · intro hit hmem
    rw [helper_relevantResources_eq] at hmem
    exact mem_collectResourceHits.mp (mem_sortHitsR.mp (List.mem_of_mem_take hmem))
  · intro hit hmem
    rw [helper_relevantPrompts_eq] at hmem
    exact mem_collectPromptHits.mp (mem_sortHitsP.mp (List.mem_of_mem_take hmem))
  · intro hlen server entries resource hs hr hscore
    rw [helper_relevantResources_eq]
    rw [List.take_of_length_le (by rw [length_sortHitsR]; exact hlen)]
    exact mem_sortHitsR.mpr
      (mem_collectResourceHits.mpr ⟨server, entries, resource, hs, hr, hscore, rfl⟩)
  · intro hlen server entries prompt hs hq hscore
    rw [helper_relevantPrompts_eq]
    rw [List.take_of_length_le (by rw [length_sortHitsP]; exact hlen)]
    exact mem_sortHitsP.mpr
      (mem_collectPromptHits.mpr ⟨server, entries, prompt, hs, hq, hscore, rfl⟩)

/-- A one-resource registry for the amended-claim witness. -/
def cexSmall : ServerMap MCPResource := [("srv".data, [cexResource '1'])]

/-- Witness for claim C3 (amended) at a concrete query and one-resource
registry: the qualifying resource appears in the returned set, and every
returned entry is certified to come from a qualifying candidate. -/
theorem helper_threshold_amended_witness :
    (∃ server entries resource, (server, entries) ∈ cexSmall ∧ resource ∈ entries ∧
      30 < (calculateResourceRelevance resource (extractKeywords "slack".data)
        none).score ∧
      mkResourceHit (extractKeywords "slack".data) none "srv".data (cexResource '1') =
        mkResourceHit (extractKeywords "slack".data) none server resource) ∧
    mkResourceHit (extractKeywords "slack".data) none "srv".data (cexResource '1') ∈
      (intelligentMCPHelper "slack".data none cexSmall []).relevantResources :=
  ⟨(helper_threshold_amended "slack".data none cexSmall []).1 _ (by decide),
   (helper_threshold_amended "slack".data none cexSmall []).2.2.1 (by decide)
     "srv".data [cexResource '1'] (cexResource '1') (by decide) (by decide) (by decide)⟩

/-- Claim C9: the helper returns at most five relevant resources and at
most five relevant prompts, each list sorted by descending length of the
`relevanceReason` string, while `shouldUseResources` and
`shouldUsePrompts` are computed from the full pre-truncation lists: each
flag is true exactly when at least one candidate of that kind scores
strictly above `0.3`, even when more than five do. -/
theorem helper_output_shape (userQuery : List Char) (queryType : Option QueryType)
    (allResources : ServerMap MCPResource) (allPrompts : ServerMap MCPPrompt) :
    (intelligentMCPHelper userQuery queryType allResources
      allPrompts).relevantResources.length ≤ 5 ∧
    (intelligentMCPHelper userQuery queryType allResources
      allPrompts).relevantPrompts.length ≤ 5 ∧
    (intelligentMCPHelper userQuery queryType allResources
      allPrompts).relevantResources.Pairwise reasonGE ∧
    (intelligentMCPHelper userQuery queryType allResources
      allPrompts).relevantPrompts.Pairwise reasonGEP ∧
    ((intelligentMCPHelper userQuery queryType allResources
        allPrompts).shouldUseResources = true ↔
      ∃ server entries resource, (server, entries) ∈ allResources ∧ resource ∈ entries ∧
        30 < (calculateResourceRelevance resource (extractKeywords userQuery)
          queryType).score) ∧
    ((intelligentMCPHelper userQuery queryType allResources
        allPrompts).shouldUsePrompts = true ↔
      ∃ server entries prompt, (server, entries) ∈ allPrompts ∧ prompt ∈ entries ∧
        30 < (calculatePromptRelevance prompt (extractKeywords userQuery)
          queryType).score) := by
  refine ⟨?_, ?_, ?_, ?_, ?_, ?_⟩
  · rw [helper_relevantResources_eq]
    simp [List.length_take]
  · rw [helper_relevantPrompts_eq]
    simp [List.length_take]
  · rw [helper_relevantResources_eq]
    exact (List.sorted_insertionSort reasonGE _).sublist (List.take_sublist 5 _)
  · rw [helper_relevantPrompts_eq]
    exact (List.sorted_insertionSort reasonGEP _).sublist (List.take_sublist 5 _)
  · show decide (0 < (sortHitsR (collectResourceHits allResources
      (extractKeywords userQuery) queryType)).length) = true ↔ _
    rw [decide_eq_true_eq, length_sortHitsR, List.length_pos_iff_exists_mem]
    constructor
    · rintro ⟨hit, hmem⟩
      obtain ⟨server, entries, resource, hs, hr, hscore, _⟩ :=
        mem_collectResourceHits.mp hmem
      exact ⟨server, entries, resource, hs, hr, hscore⟩
    · rintro ⟨server, entries, resource, hs, hr, hscore⟩
      exact ⟨_, mem_collectResourceHits.mpr ⟨server, entries, resource, hs, hr, hscore, rfl⟩⟩
  · show decide (0 < (sortHitsP (collectPromptHits allPrompts
      (extractKeywords userQuery) queryType)).length) = true ↔ _
    rw [decide_eq_true_eq, length_sortHitsP, List.length_pos_iff_exists_mem]
    constructor
    · rintro ⟨hit, hmem⟩
      obtain ⟨server, entries, prompt, hs, hq, hscore, _⟩ :=
        mem_collectPromptHits.mp hmem
      exact ⟨server, entries, prompt, hs, hq, hscore⟩
    · rintro ⟨server, entries, prompt, hs, hq, hscore⟩
      exact ⟨_, mem_collectPromptHits.mpr ⟨server, entries, prompt, hs, hq, hscore, rfl⟩⟩

end OmniAgent
